import Mathlib

/-!
Verification development for the inbox_zero email-triage pipeline.

The Python source is shallowly embedded: Python dicts become insertion-ordered
association lists, mutable objects become explicit state passing, collaborator
calls (Gmail, OpenAI, Slack) become oracle parameters, raised exceptions become
`Except` values, and wall-clock time becomes an explicit `now : Int` parameter
(seconds).
-/

namespace InboxZero

/-- `src/src/models/gmail.py` `EmailMessage` (a pydantic model). -/
structure EmailMessage where
  id : String
  subject : String
  from_email : String
  to_email : String
  date : String
  body : String
  is_read : Bool
  is_important : Bool
  thread_id : String
deriving DecidableEq

/-- One entry of the `emails_to_respond` JSON list produced by the triage
LLM call in `_process_emails_for_drafts` (a dict of four strings). -/
structure EmailInfo where
  email_id : String
  priority : String
  response_type : String
  reason : String
deriving DecidableEq

/-- A Gmail API draft object returned by `GmailWriter.create_draft`; it is a
plain dict the repository treats opaquely, so it is modelled by its id and
round-trips serialization unchanged. -/
structure Draft where
  id : String
deriving DecidableEq

/-- A dynamically typed Python value (as far as this code needs): scalars,
lists, dicts, plus the two kinds of live objects this program stores inside
dynamically typed (`Dict`/`List[Dict]`) fields — `EmailMessage` pydantic
models and opaque Gmail draft dicts. -/
inductive PyVal where
  | pstr (s : String)
  | pint (n : Int)
  | pbool (b : Bool)
  | pnone
  | plist (xs : List PyVal)
  | pdict (entries : List (String × PyVal))
  | pemail (e : EmailMessage)
  | pdraft (d : Draft)

/-- Python dict `d[k] = v`: updates in place if the key exists (keeping its
position), otherwise appends, as Python dicts preserve insertion order. -/
def pyInsert (l : List (String × α)) (k : String) (v : α) : List (String × α) :=
  if (l.map Prod.fst).contains k then
    l.map (fun p => if p.1 = k then (k, v) else p)
  else l ++ [(k, v)]

/-- Python dict `d.get(k)` / `k in d` lookup. -/
def pyGet (l : List (String × α)) (k : String) : Option α :=
  (l.find? (fun p => p.1 == k)).map Prod.snd

/-- Python `del d[k]`. -/
def pyDel (l : List (String × α)) (k : String) : List (String × α) :=
  l.filter (fun p => p.1 ≠ k)

/-- Python `v[k]` on a dynamically typed value; `none` models the KeyError
(or TypeError on a non-dict). -/
def pyValGet (v : PyVal) (k : String) : Option PyVal :=
  match v with
  | .pdict d => pyGet d k
  | _ => none

/-- Python list indexing `l[i]` with negative-index wraparound;
`none` models an IndexError. -/
def pyIndex (l : List α) (i : Int) : Option α :=
  if 0 ≤ i then l.get? i.toNat
  else if (-i).toNat ≤ l.length then l.get? (l.length - (-i).toNat)
  else none

/-- Python `x or default` for strings (empty string is falsy). -/
def pyStrOr (x : Option String) (default : String) : String :=
  match x with
  | some s => if s = "" then default else s
  | none => default

/-- `value.split("_", 1)` followed by 2-unpacking; `none` models the
ValueError raised when there is no underscore. -/
def splitOnceUnderscore (s : String) : Option (String × String) :=
  go s.toList
where
  go : List Char → Option (String × String)
    | [] => none
    | c :: cs =>
      if c = '_' then some ("", String.mk cs)
      else (go cs).map (fun p => (String.mk (c :: p.1.toList), p.2))

/-- `src/src/models/gmail.py` `EmailSummary`. `summary_by_sender` is annotated
as a bare `dict`, so its values are dynamically typed: `_group_by_sender`
fills them with lists of `EmailMessage` models, and a serialization round
trip turns those into lists of plain dicts. -/
structure EmailSummary where
  total_unread : Int
  emails : List EmailMessage
  summary_by_sender : List (String × PyVal)
  urgent_emails : List EmailMessage
  recent_activity : String

/-- `src/src/models/agent.py` `GmailAgentState` (timestamps as seconds).
`processed_emails`, `draft_responses` and `pending_approvals` are annotated
`List[Dict]`; the latter two are modelled as lists of dynamic values because
the dicts `_create_draft_responses` builds hold live `EmailMessage` models
and Gmail draft objects, while a round trip leaves only plain dicts.
`processed_emails` entries are dicts of four strings (from the triage JSON),
kept structured. -/
structure GmailAgentState where
  user_id : String
  thread_id : String
  unread_emails : List EmailMessage := []
  email_summary : Option EmailSummary := none
  current_email_index : Int := 0
  processed_emails : List EmailInfo := []
  draft_responses : List PyVal := []
  pending_approvals : List PyVal := []
  current_draft_index : Int := 0
  awaiting_approval : Bool := false
  awaiting_approval_since : Option Int := none
  should_continue : Bool := true
  error_message : Option String := none
  final_summary : Option String := none
  workflow_complete : Bool := false

/-! ## Serialization: `model_dump` and pydantic reconstruction

`StateManager.save_state` stores `state.model_dump()` inside a versioned
envelope; `load_state` rebuilds the object with `GmailAgentState(**data)`.
Pickle round-trips values, so the store holds the envelope itself. -/

/-- Pydantic string field validation. -/
def decStr : PyVal → Option String
  | .pstr s => some s
  | _ => none

/-- Pydantic int field validation. -/
def decInt : PyVal → Option Int
  | .pint n => some n
  | _ => none

/-- Pydantic bool field validation. -/
def decBool : PyVal → Option Bool
  | .pbool b => some b
  | _ => none

/-- Pydantic `Optional[...]` field validation (`None` is allowed). -/
def decOpt (f : PyVal → Option α) : PyVal → Option (Option α)
  | .pnone => some none
  | v => (f v).map some

/-- Encode an `Optional[...]` field. -/
def encOpt (f : α → PyVal) : Option α → PyVal
  | none => .pnone
  | some x => f x

/-- Validate every element of a list, failing if any element fails. -/
def optMapList (f : β → Option α) : List β → Option (List α)
  | [] => some []
  | x :: xs =>
    match f x, optMapList f xs with
    | some a, some as => some (a :: as)
    | _, _ => none

/-- `EmailMessage.model_dump()`. -/
def EmailMessage.model_dump (e : EmailMessage) : PyVal :=
  .pdict [("id", .pstr e.id), ("subject", .pstr e.subject),
    ("from_email", .pstr e.from_email), ("to_email", .pstr e.to_email),
    ("date", .pstr e.date), ("body", .pstr e.body),
    ("is_read", .pbool e.is_read), ("is_important", .pbool e.is_important),
    ("thread_id", .pstr e.thread_id)]

/-- `EmailMessage(**d)` pydantic reconstruction/validation — applied by
pydantic only where the annotation names the model (`List[EmailMessage]`
fields), never inside bare `Dict`/`List[Dict]` fields. -/
def EmailMessage.validate (v : PyVal) : Option EmailMessage :=
  match v with
  | .pdict d => do
    let id ← pyGet d "id" >>= decStr
    let subject ← pyGet d "subject" >>= decStr
    let from_email ← pyGet d "from_email" >>= decStr
    let to_email ← pyGet d "to_email" >>= decStr
    let date ← pyGet d "date" >>= decStr
    let body ← pyGet d "body" >>= decStr
    let is_read ← pyGet d "is_read" >>= decBool
    let is_important ← pyGet d "is_important" >>= decBool
    let thread_id ← pyGet d "thread_id" >>= decStr
    some ⟨id, subject, from_email, to_email, date, body, is_read, is_important, thread_id⟩
  | _ => none

mutual

/-- Pydantic `model_dump`'s duck serialization of a dynamically typed value:
a nested `EmailMessage` model becomes its plain dict, an opaque Gmail draft
object is already a plain dict and stays itself, and lists/dicts are
serialized recursively. This is what loses the model objects inside
`draft_responses`, `pending_approvals` and `summary_by_sender`. -/
def dumpPyVal : PyVal → PyVal
  | .pemail e => EmailMessage.model_dump e
  | .pdraft d => .pdraft d
  | .plist xs => .plist (dumpPyList xs)
  | .pdict d => .pdict (dumpPyEntries d)
  | .pstr s => .pstr s
  | .pint n => .pint n
  | .pbool b => .pbool b
  | .pnone => .pnone

/-- Duck serialization of the elements of a Python list. -/
def dumpPyList : List PyVal → List PyVal
  | [] => []
  | x :: xs => dumpPyVal x :: dumpPyList xs

/-- Duck serialization of the values of a Python dict. -/
def dumpPyEntries : List (String × PyVal) → List (String × PyVal)
  | [] => []
  | (k, v) :: xs => (k, dumpPyVal v) :: dumpPyEntries xs

end

/-- Whether a dynamic value is a Python dict (a Gmail draft object is one). -/
def isPyDict : PyVal → Bool
  | .pdict _ => true
  | .pdraft _ => true
  | _ => false

/-- Pydantic validation of a `List[Dict]` field: each element must be a dict,
and the dicts are kept as they are — no nested model reconstruction. -/
def decDictList : PyVal → Option (List PyVal)
  | .plist xs => if xs.all isPyDict then some xs else none
  | _ => none

/-- Pydantic validation of a bare `dict` field: any dict passes and its
values are kept untouched. -/
def decRawDict : PyVal → Option (List (String × PyVal))
  | .pdict d => some d
  | _ => none

/-- `EmailSummary.model_dump()`: the typed `List[EmailMessage]` fields dump
their models; the bare-`dict` field `summary_by_sender` has its values
duck-serialized. -/
def EmailSummary.model_dump (s : EmailSummary) : PyVal :=
  .pdict [("total_unread", .pint s.total_unread),
    ("emails", .plist (s.emails.map EmailMessage.model_dump)),
    ("summary_by_sender", .pdict (s.summary_by_sender.map
      (fun p => (p.1, dumpPyVal p.2)))),
    ("urgent_emails", .plist (s.urgent_emails.map EmailMessage.model_dump)),
    ("recent_activity", .pstr s.recent_activity)]

/-- Validate a `List[EmailMessage]` field (pydantic reconstructs the models
here because the annotation names them). -/
def decEmailList : PyVal → Option (List EmailMessage)
  | .plist xs => optMapList EmailMessage.validate xs
  | _ => none

/-- `EmailSummary(**d)` pydantic reconstruction/validation: `emails` and
`urgent_emails` are rebuilt into models, `summary_by_sender` stays a raw
dict. -/
def EmailSummary.validate (v : PyVal) : Option EmailSummary :=
  match v with
  | .pdict d => do
    let total_unread ← pyGet d "total_unread" >>= decInt
    let emails ← pyGet d "emails" >>= decEmailList
    let summary_by_sender ← pyGet d "summary_by_sender" >>= decRawDict
    let urgent_emails ← pyGet d "urgent_emails" >>= decEmailList
    let recent_activity ← pyGet d "recent_activity" >>= decStr
    some ⟨total_unread, emails, summary_by_sender, urgent_emails, recent_activity⟩
  | _ => none

/-- Dump of one triage-analysis dict (four string values; round-trips). -/
def EmailInfo.model_dump (i : EmailInfo) : PyVal :=
  .pdict [("email_id", .pstr i.email_id), ("priority", .pstr i.priority),
    ("response_type", .pstr i.response_type), ("reason", .pstr i.reason)]

/-- Reconstruction of one triage-analysis dict. -/
def EmailInfo.validate (v : PyVal) : Option EmailInfo :=
  match v with
  | .pdict d => do
    let email_id ← pyGet d "email_id" >>= decStr
    let priority ← pyGet d "priority" >>= decStr
    let response_type ← pyGet d "response_type" >>= decStr
    let reason ← pyGet d "reason" >>= decStr
    some ⟨email_id, priority, response_type, reason⟩
  | _ => none

/-- Validate a `List[Dict]` field holding triage-analysis dicts. -/
def decEmailInfoList : PyVal → Option (List EmailInfo)
  | .plist xs => optMapList EmailInfo.validate xs
  | _ => none

/-- `GmailAgentState.model_dump()`, fields in declaration order; the
`List[Dict]` fields have their entries duck-serialized. -/
def GmailAgentState.model_dump (s : GmailAgentState) : PyVal :=
  .pdict [("user_id", .pstr s.user_id), ("thread_id", .pstr s.thread_id),
    ("unread_emails", .plist (s.unread_emails.map EmailMessage.model_dump)),
    ("email_summary", encOpt EmailSummary.model_dump s.email_summary),
    ("current_email_index", .pint s.current_email_index),
    ("processed_emails", .plist (s.processed_emails.map EmailInfo.model_dump)),
    ("draft_responses", .plist (s.draft_responses.map dumpPyVal)),
    ("pending_approvals", .plist (s.pending_approvals.map dumpPyVal)),
    ("current_draft_index", .pint s.current_draft_index),
    ("awaiting_approval", .pbool s.awaiting_approval),
    ("awaiting_approval_since", encOpt PyVal.pint s.awaiting_approval_since),
    ("should_continue", .pbool s.should_continue),
    ("error_message", encOpt PyVal.pstr s.error_message),
    ("final_summary", encOpt PyVal.pstr s.final_summary),
    ("workflow_complete", .pbool s.workflow_complete)]

/-- `GmailAgentState(**d)` pydantic reconstruction/validation. The
`draft_responses` and `pending_approvals` fields are validated only as lists
of dicts (their contents stay raw); `unread_emails` and the nested
`EmailSummary` are rebuilt because their annotations name the models. -/
def GmailAgentState.validate (v : PyVal) : Option GmailAgentState :=
  match v with
  | .pdict d => do
    let user_id ← pyGet d "user_id" >>= decStr
    let thread_id ← pyGet d "thread_id" >>= decStr
    let unread_emails ← pyGet d "unread_emails" >>= decEmailList
    let email_summary ← pyGet d "email_summary" >>= decOpt EmailSummary.validate
    let current_email_index ← pyGet d "current_email_index" >>= decInt
    let processed_emails ← pyGet d "processed_emails" >>= decEmailInfoList
    let draft_responses ← pyGet d "draft_responses" >>= decDictList
    let pending_approvals ← pyGet d "pending_approvals" >>= decDictList
    let current_draft_index ← pyGet d "current_draft_index" >>= decInt
    let awaiting_approval ← pyGet d "awaiting_approval" >>= decBool
    let awaiting_approval_since ← pyGet d "awaiting_approval_since" >>= decOpt decInt
    let should_continue ← pyGet d "should_continue" >>= decBool
    let error_message ← pyGet d "error_message" >>= decOpt decStr
    let final_summary ← pyGet d "final_summary" >>= decOpt decStr
    let workflow_complete ← pyGet d "workflow_complete" >>= decBool
    some ⟨user_id, thread_id, unread_emails, email_summary, current_email_index,
      processed_emails, draft_responses, pending_approvals, current_draft_index,
      awaiting_approval, awaiting_approval_since, should_continue, error_message,
      final_summary, workflow_complete⟩
  | _ => none

/-- Well-formedness enforced by pydantic at construction time: the
`List[Dict]` fields `draft_responses` and `pending_approvals` hold only
dicts. Every state pydantic ever builds satisfies this. -/
def WellFormedState (st : GmailAgentState) : Prop :=
  st.draft_responses.all isPyDict = true ∧ st.pending_approvals.all isPyDict = true

/-- What one serialization round trip does to an `EmailSummary`: the values
of the bare-dict `summary_by_sender` come back duck-serialized. -/
def reloadSummary (es : EmailSummary) : EmailSummary :=
  { es with
    summary_by_sender := es.summary_by_sender.map (fun p => (p.1, dumpPyVal p.2)) }

/-- What one serialization round trip does to a `GmailAgentState`: every
typed field survives unchanged, while the nested `EmailMessage` models
inside `draft_responses`, `pending_approvals` and `summary_by_sender` are
replaced by their plain-dict dumps. -/
def reloadState (st : GmailAgentState) : GmailAgentState :=
  { st with
    email_summary := st.email_summary.map reloadSummary,
    draft_responses := st.draft_responses.map dumpPyVal,
    pending_approvals := st.pending_approvals.map dumpPyVal }

/-! ## State Store: `src/src/workflows/state_manager.py` -/

/-- The versioned envelope `save_state` pickles into the store:
`{"type": ..., "version": ..., "timestamp": ..., "data": state.model_dump()}`.
Pickle round-trips, so the store is modelled as holding the envelope value. -/
structure Envelope where
  type_tag : String
  version : String
  timestamp : Int
  data : PyVal

/-- `StateManager` with the default `storage_backend="memory"` (the module's
global singleton `state_manager = StateManager()` uses this default; the
`"file"` backend's `_save_to_file`/`_load_from_file` are not defined in the
class). `_memory_store` maps user ids to pickled envelopes. -/
structure StateManager where
  memory_store : List (String × Envelope) := []

/-- `StateManager.save_state`: wraps `state.model_dump()` in an envelope and
overwrites the record keyed by `state.user_id`. The `isinstance` check always
passes here because the argument is typed. `now` models `datetime.now()`. -/
def StateManager.save_state (sm : StateManager) (now : Int) (state : GmailAgentState) :
    StateManager :=
  let serialized_data : Envelope :=
    { type_tag := "GmailAgentState", version := "1.0", timestamp := now,
      data := state.model_dump }
  { sm with memory_store := pyInsert sm.memory_store state.user_id serialized_data }

/-- `extract_langgraph_state`: unwraps `{'node_name': {...}}` one level when the
dict has exactly one entry whose value is itself a dict; otherwise returns the
input unchanged. -/
def extract_langgraph_state (state_dict : PyVal) : PyVal :=
  match state_dict with
  | .pdict [(_, .pdict inner)] => .pdict inner
  | v => v

/-- The body of `StateManager.load_state`'s `try` block: `.error` models an
exception escaping the block (`ValueError` from the type-tag check or a
pydantic `ValidationError` from `GmailAgentState(**actual_state)`);
`.ok none` is the explicit `return None` for a missing record. -/
def StateManager.load_state_attempt (sm : StateManager) (user_id : String) :
    Except String (Option GmailAgentState) :=
  match pyGet sm.memory_store user_id with
  | none => .ok none
  | some serialized_data =>
    if serialized_data.type_tag ≠ "GmailAgentState" then
      .error ("Expected GmailAgentState, got " ++ serialized_data.type_tag)
    else
      match GmailAgentState.validate (extract_langgraph_state serialized_data.data) with
      | some st => .ok (some st)
      | none => .error "ValidationError"

/-- `StateManager.load_state`: the surrounding `except Exception` prints the
error and returns `None`, so every exception is coerced to `none`. -/
def StateManager.load_state (sm : StateManager) (user_id : String) :
    Option GmailAgentState :=
  match sm.load_state_attempt user_id with
  | .ok r => r
  | .error _ => none

/-- Module-level helper `save_state_to_store` (delegates to the singleton). -/
def save_state_to_store (sm : StateManager) (now : Int) (state : GmailAgentState) :
    StateManager :=
  sm.save_state now state

/-- Module-level helper `load_state_from_store` (delegates to the singleton). -/
def load_state_from_store (sm : StateManager) (user_id : String) :
    Option GmailAgentState :=
  sm.load_state user_id

/-! ## Workflow Engine: `src/src/workflows/workflow.py`

External collaborators (GmailReader, OpenAI, GmailWriter, DraftApprovalHandler)
are oracles; `.error` values model exceptions raised by a call. -/

/-- Oracles for the collaborator calls made by `EmailProcessingWorkflow` nodes. -/
structure Collab where
  /-- `gmail_reader.read_emails(count=5, unread_only=True, include_body=True, primary_only=True)` -/
  read_emails : List EmailMessage
  /-- `gmail_reader.get_recent_emails_in_thread(thread_id, count=4)` -/
  thread_emails : String → List EmailMessage
  /-- the summarization chat completion in `_generate_email_summary`:
  raises, or returns `response.choices[0].message.content` (possibly `None`) -/
  summary_result : Except String (Option String)
  /-- the analysis chat completion plus `json.loads` in
  `_process_emails_for_drafts`: raises, or yields `analysis["emails_to_respond"]` -/
  analysis_result : Except String (List EmailInfo)
  /-- `_generate_draft_response(email, email_info)`: raises, or returns content
  (possibly `None`, replaced by "No response generated") -/
  draft_content : EmailMessage → EmailInfo → Except String (Option String)
  /-- `gmail_writer.create_draft(...)`: raises (caught, email skipped) or
  returns the draft dict -/
  create_draft : EmailMessage → String → Except String Draft
  /-- `draft_handler.send_draft_for_approval(draft, user_id)` on the value
  found under the entry's "draft" key: raises, or returns the generated
  approval `draft_id` string -/
  send_for_approval : PyVal → String → Except String String

/-- `_read_unread_emails` de-duplication
`list({e.id: e for e in recent_emails}.values())`: a Python dict comprehension
keeps the position of a key's first occurrence and the value of its last. -/
def dedupById (emails : List EmailMessage) : List EmailMessage :=
  (emails.foldl (fun acc e => pyInsert acc e.id e) []).map Prod.snd

/-- `_read_unread_emails`: fetches unread messages, extends with each thread's
recent messages, de-duplicates by message id. -/
def read_unread_emails (c : Collab) (state : GmailAgentState) : GmailAgentState :=
  let unread_emails := c.read_emails
  let recent_emails := (unread_emails.map (fun e => c.thread_emails e.thread_id)).flatten
  { state with unread_emails := dedupById recent_emails }

/-- `_group_by_sender`: groups emails by `from_email`, preserving first-seen
sender order; the resulting dict's values are Python lists of live
`EmailMessage` models. -/
def group_by_sender (emails : List EmailMessage) : List (String × PyVal) :=
  (emails.foldl
    (fun groups e =>
      match pyGet groups e.from_email with
      | some l => pyInsert groups e.from_email (l ++ [PyVal.pemail e])
      | none => pyInsert groups e.from_email [PyVal.pemail e])
    ([] : List (String × List PyVal))).map (fun p => (p.1, PyVal.plist p.2))

/-- `_generate_email_summary`: empty inbox sets `email_summary = None`;
a generator failure is caught, recorded in `error_message`, and sets
`should_continue = False`; otherwise builds the `EmailSummary`. -/
def generate_email_summary (c : Collab) (state : GmailAgentState) : GmailAgentState :=
  if state.unread_emails.isEmpty then
    { state with email_summary := none }
  else
    match c.summary_result with
    | .error e =>
      { state with
        error_message := some ("Error generating summary: " ++ e),
        should_continue := false }
    | .ok summary_text =>
      { state with
        email_summary := some
          { total_unread := state.unread_emails.length,
            emails := state.unread_emails,
            summary_by_sender := group_by_sender state.unread_emails,
            urgent_emails := state.unread_emails.filter (fun e => e.is_important),
            recent_activity := pyStrOr summary_text "No summary available" } }

/-- `_process_emails_for_drafts`: empty inbox is a no-op; a failed or
unparseable analysis call is caught into `error_message`; otherwise stores
`emails_to_respond` into `processed_emails`. -/
def process_emails_for_drafts (c : Collab) (state : GmailAgentState) : GmailAgentState :=
  if state.unread_emails.isEmpty then state
  else
    match c.analysis_result with
    | .error e =>
      { state with
        error_message := some ("Error processing emails: " ++ e),
        should_continue := false }
    | .ok emails_to_respond =>
      { state with processed_emails := emails_to_respond }

/-- The per-candidate loop body of `_create_draft_responses`: an unknown email
id is skipped, a raising `_generate_draft_response` escapes to the outer
`except`, a raising `create_draft` is caught and the candidate skipped. -/
def build_draft_responses (c : Collab) (unread : List EmailMessage) :
    List EmailInfo → Except String (List PyVal)
  | [] => .ok []
  | email_info :: rest =>
    match unread.find? (fun e => e.id == email_info.email_id) with
    | none => build_draft_responses c unread rest
    | some email =>
      match c.draft_content email email_info with
      | .error e => .error e
      | .ok content =>
        let draft_content := pyStrOr content "No response generated"
        match c.create_draft email draft_content with
        | .error _ => build_draft_responses c unread rest
        | .ok draft =>
          (build_draft_responses c unread rest).map
            (fun tail =>
              PyVal.pdict [("email_id", .pstr email_info.email_id),
                ("draft", .pdraft draft),
                ("priority", .pstr email_info.priority),
                ("original_email", .pemail email),
                ("draft_content", .pstr draft_content)] :: tail)

/-- `_create_draft_responses`: no candidates is a no-op; an exception escaping
the loop is caught into `error_message` (leaving `draft_responses` as it was);
otherwise the successes are stored in candidate order. -/
def create_draft_responses (c : Collab) (state : GmailAgentState) : GmailAgentState :=
  if state.processed_emails.isEmpty then state
  else
    match build_draft_responses c state.unread_emails state.processed_emails with
    | .error e =>
      { state with
        error_message := some ("Error creating drafts: " ++ e),
        should_continue := false }
    | .ok draft_responses =>
      { state with draft_responses := draft_responses }

/-- `TIMEOUT_SECONDS = 3600  # 1 hour` in `_send_drafts_to_slack`. -/
def TIMEOUT_SECONDS : Int := 3600

/-- Output of one node execution: the node's result (`.error` models an
uncaught exception), the approval requests it published, and the store
(the gate calls `save_state_to_store`). -/
structure NodeOut where
  result : Except String GmailAgentState
  published : List PyVal
  store : StateManager

/-- `_send_drafts_to_slack`, the PublishGate. Branches, in source order:
no drafts or cursor past the end clears `awaiting_approval`; already awaiting
self-advances on `elapsed > TIMEOUT_SECONDS` (strict) else returns the state
unchanged (`-` on a `None` timestamp raises); otherwise reads
`draft_info["draft"]` (KeyError if absent), publishes it, and — because `current_draft_id` is not a declared field of
`GmailAgentState` — the assignment `state.current_draft_id = draft_id` raises a
pydantic `ValueError` whenever the returned `draft_id` is truthy. -/
def send_drafts_to_slack (c : Collab) (now : Int) (store : StateManager)
    (state : GmailAgentState) : NodeOut :=
  if state.draft_responses.isEmpty
      || state.current_draft_index ≥ (state.draft_responses.length : Int) then
    { result := .ok { state with awaiting_approval := false },
      published := [], store := store }
  else if state.awaiting_approval then
    match state.awaiting_approval_since with
    | none =>
      { result := .error "TypeError: unsupported operand for datetime and None",
        published := [], store := store }
    | some since =>
      if now - since > TIMEOUT_SECONDS then
        { result := .ok { state with
            awaiting_approval := false,
            current_draft_index := state.current_draft_index + 1 },
          published := [], store := store }
      else
        { result := .ok state, published := [], store := store }
  else
    match pyIndex state.draft_responses state.current_draft_index with
    | none => { result := .error "IndexError", published := [], store := store }
    | some draft_info =>
      match pyValGet draft_info "draft" with
      | none => { result := .error "KeyError: draft", published := [], store := store }
      | some draft =>
        match c.send_for_approval draft state.user_id with
        | .error e => { result := .error e, published := [], store := store }
        | .ok draft_id =>
          if draft_id ≠ "" then
            { result := .error "ValueError: GmailAgentState object has no field current_draft_id",
              published := [draft], store := store }
          else
            let state := { state with
              awaiting_approval := true,
              awaiting_approval_since := some now }
            { result := .ok state, published := [draft],
              store := save_state_to_store store now state }

/-- `_wait_for_user_action`: returns the state unchanged. -/
def wait_for_user_action (state : GmailAgentState) : GmailAgentState :=
  state

/-- `_send_final_summary`: composes the digest and sets `workflow_complete`
(message texts abbreviated; only presence/shape matters to the claims). -/
def send_final_summary (state : GmailAgentState) : GmailAgentState :=
  let summary_parts : List String :=
    (match state.email_summary with
     | some s => ["Email Summary: " ++ s.recent_activity]
     | none => [])
    ++ (if state.draft_responses.isEmpty then []
        else ["Draft Responses Created: " ++ toString state.draft_responses.length])
    ++ (if state.pending_approvals.isEmpty then []
        else ["Pending Approvals: " ++ toString state.pending_approvals.length])
    ++ (match state.error_message with
        | some e => ["Errors: " ++ e]
        | none => [])
  let final_summary :=
    if summary_parts.isEmpty then "No emails processed."
    else String.intercalate "\n" summary_parts
  { state with final_summary := some final_summary, workflow_complete := true }

/-! ## The LangGraph step graph built by `_create_workflow` -/

/-- The named nodes of the compiled graph. -/
inductive Node where
  | read_unread_emails
  | generate_email_summary
  | process_emails_for_drafts
  | create_draft_responses
  | send_drafts_to_slack
  | wait_for_user_action
  | send_final_summary
deriving DecidableEq

/-- The edge relation of `_create_workflow`: four unconditional edges, the
two conditional edges (their lambdas verbatim), and `send_final_summary → END`
(`none`). -/
def nextNode (n : Node) (state : GmailAgentState) : Option Node :=
  match n with
  | .read_unread_emails => some .generate_email_summary
  | .generate_email_summary => some .process_emails_for_drafts
  | .process_emails_for_drafts => some .create_draft_responses
  | .create_draft_responses => some .send_drafts_to_slack
  | .send_drafts_to_slack =>
    if state.current_draft_index ≥ (state.draft_responses.length : Int) then
      some .send_final_summary
    else
      some .wait_for_user_action
  | .wait_for_user_action =>
    if state.awaiting_approval = false then some .send_drafts_to_slack
    else some .wait_for_user_action
  | .send_final_summary => none

/-- Dispatch one node. Only the gate touches the store or publishes. -/
def runNode (c : Collab) (now : Int) (store : StateManager) (n : Node)
    (state : GmailAgentState) : NodeOut :=
  match n with
  | .read_unread_emails =>
    { result := .ok (read_unread_emails c state), published := [], store := store }
  | .generate_email_summary =>
    { result := .ok (generate_email_summary c state), published := [], store := store }
  | .process_emails_for_drafts =>
    { result := .ok (process_emails_for_drafts c state), published := [], store := store }
  | .create_draft_responses =>
    { result := .ok (create_draft_responses c state), published := [], store := store }
  | .send_drafts_to_slack => send_drafts_to_slack c now store state
  | .wait_for_user_action =>
    { result := .ok (wait_for_user_action state), published := [], store := store }
  | .send_final_summary =>
    { result := .ok (send_final_summary state), published := [], store := store }

/-- How a `workflow.stream(...)` generator run ends: reaching `END`, an
exception propagating out of a node, or LangGraph's `GraphRecursionError`
when the recursion limit (default 25 supersteps) is exhausted — which the
`wait_for_user_action` self-loop will hit. -/
inductive RunOutcome where
  | finished
  | raised (e : String)
  | recursionLimit
deriving DecidableEq

/-- A whole generator run: the nodes executed in order, the node output states
yielded to the consumer, the final store, the approval requests published, and
how the run ended. -/
structure RunOut where
  trace : List Node
  states : List GmailAgentState
  store : StateManager
  published : List PyVal
  outcome : RunOutcome

/-- Execute the compiled graph from node `n` with the given superstep budget. -/
def runGraph (c : Collab) (now : Int) :
    Nat → Node → GmailAgentState → StateManager → RunOut
  | 0, _, _, store =>
    { trace := [], states := [], store := store, published := [],
      outcome := .recursionLimit }
  | fuel + 1, n, state, store =>
    let out := runNode c now store n state
    match out.result with
    | .error e =>
      { trace := [n], states := [], store := out.store,
        published := out.published, outcome := .raised e }
    | .ok state' =>
      match nextNode n state' with
      | none =>
        { trace := [n], states := [state'], store := out.store,
          published := out.published, outcome := .finished }
      | some n' =>
        let rest := runGraph c now fuel n' state' out.store
        { trace := n :: rest.trace, states := state' :: rest.states,
          store := rest.store, published := out.published ++ rest.published,
          outcome := rest.outcome }

/-- LangGraph's default recursion limit. -/
def RECURSION_LIMIT : Nat := 25

/-- `workflow.stream(state)` on the compiled graph: execution starts at the
entry point set by `workflow.set_entry_point("read_unread_emails")`. -/
def streamWorkflow (c : Collab) (now : Int) (state : GmailAgentState)
    (store : StateManager) : RunOut :=
  runGraph c now RECURSION_LIMIT Node.read_unread_emails state store

/-! ## Resume Bridge: `src/src/slack_handlers/workflow_bridge.py` -/

/-- What one `resume_workflow_after_action` call did: the store afterwards,
the texts passed to `respond`, the engine run if one happened, and `.error`
when an exception escaped the call. -/
structure ResumeOut where
  store : StateManager
  responds : List String
  run : Option RunOut
  outcome : Except String Unit

/-- The two mutation statements of the bridge:
`state.awaiting_approval = False` and `state.current_draft_index += 1`. -/
def bridgeMutate (state : GmailAgentState) : GmailAgentState :=
  { state with
    awaiting_approval := false,
    current_draft_index := state.current_draft_index + 1 }

/-- `resume_workflow_after_action(user_id, respond, workflow)`: loads the
user's state (silently returning when there is none), clears
`awaiting_approval`, increments `current_draft_index`, streams the compiled
workflow from its entry point, keeps the last yielded state, saves it, and
responds with one of three status lines. -/
def resume_workflow_after_action (c : Collab) (now : Int) (user_id : String)
    (store : StateManager) : ResumeOut :=
  match load_state_from_store store user_id with
  | none => { store := store, responds := [], run := none, outcome := .ok () }
  | some state =>
    let state := bridgeMutate state
    let result_gen := streamWorkflow c now state store
    match result_gen.outcome with
    | .raised e =>
      { store := result_gen.store, responds := [], run := some result_gen,
        outcome := .error e }
    | .recursionLimit =>
      { store := result_gen.store, responds := [], run := some result_gen,
        outcome := .error "GraphRecursionError" }
    | .finished =>
      let final_state := (result_gen.states.getLast?).getD state
      let store' := save_state_to_store result_gen.store now final_state
      let msg :=
        if final_state.awaiting_approval then
          "Workflow paused. Waiting for next draft approval."
        else if final_state.workflow_complete then
          "Workflow completed successfully!"
        else "Workflow resumed and completed."
      { store := store', responds := [msg], run := some result_gen,
        outcome := .ok () }

/-! ## Approval Broker: `src/src/slack_handlers/draft_approval_handler.py` -/

/-- One `pending_drafts[draft_id]` dict. Keys that Python adds later
(`approved_by`, `rejected_at`, ...) are `Option` fields, absent as `none`. -/
structure DraftData where
  draft : Draft
  user_id : String
  created_at : Int
  status : String
  approved_by : Option String := none
  approved_at : Option Int := none
  rejected_by : Option String := none
  rejected_at : Option Int := none
  slack_message_ts : Option String := none
  slack_channel : Option String := none
deriving DecidableEq

/-- `DraftApprovalHandler`'s mutable dictionaries. -/
structure DraftApprovalHandler where
  pending_drafts : List (String × DraftData) := []
  draft_timeouts : List (String × Int) := []
deriving DecidableEq

/-- `DRAFT_TIMEOUT_HOURS = 24`, in seconds. -/
def DRAFT_TIMEOUT_SECONDS : Int := 24 * 3600

/-- A call into `gmail_writer` made while resolving a decision. -/
inductive MailEffect where
  | sendDraft (d : Draft)
  | saveDraft (d : Draft)
deriving DecidableEq

/-- `MailEffect` is a send. -/
def MailEffect.isSend : MailEffect → Bool
  | .sendDraft _ => true
  | .saveDraft _ => false

/-- Observable side effects of handler calls: `gmail_writer` calls in order,
`say(...)` texts, and `chat_update` replacements of the original message. -/
structure HandlerEffects where
  mail : List MailEffect := []
  said : List String := []
  chat_updates : List String := []
deriving DecidableEq

/-- Append a `say(text=...)` call (texts abbreviated). -/
def sayEff (eff : HandlerEffects) (t : String) : HandlerEffects :=
  { eff with said := eff.said ++ [t] }

/-- `gmail_writer.send_draft(draft)` result oracle: `none` models a falsy
result, `some id` a sent-message dict (exceptions from the writer and from
Slack calls are out of the claims' scope and not raised by this model). -/
structure WriterOracle where
  send_draft : Draft → Option String

/-- `_update_original_message`: posts a `chat_update` replacing the buttons iff
both `slack_message_ts` and `slack_channel` are present; errors are swallowed. -/
def update_original_message (h : DraftApprovalHandler) (draft_id status_text : String)
    (eff : HandlerEffects) : HandlerEffects :=
  match pyGet h.pending_drafts draft_id with
  | none => eff
  | some draft_data =>
    if draft_data.slack_message_ts.isSome && draft_data.slack_channel.isSome then
      { eff with chat_updates := eff.chat_updates ++ [status_text] }
    else eff

/-- `_cleanup_draft`: removes the draft from both dictionaries. -/
def cleanup_draft (h : DraftApprovalHandler) (draft_id : String) : DraftApprovalHandler :=
  { pending_drafts := pyDel h.pending_drafts draft_id,
    draft_timeouts := pyDel h.draft_timeouts draft_id }

/-- `_handle_approve`: looks the draft up, calls `gmail_writer.send_draft`;
on a truthy result it updates the original message, reports success, and
writes `status/approved_by/approved_at` into the draft dict; on a falsy
result it reports failure and cleans the draft up. A missing draft id is a
`KeyError` caught by the caller's `except` (reported via `say`). -/
def handle_approve (w : WriterOracle) (now : Int) (h : DraftApprovalHandler)
    (draft_id user_id : String) (eff : HandlerEffects) :
    DraftApprovalHandler × HandlerEffects :=
  match pyGet h.pending_drafts draft_id with
  | none => (h, sayEff eff "An error occurred while sending the email.")
  | some draft_data =>
    let eff := { eff with mail := eff.mail ++ [.sendDraft draft_data.draft] }
    match w.send_draft draft_data.draft with
    | some _ =>
      let eff := update_original_message h draft_id "APPROVED AND SENT" eff
      let eff := sayEff eff "Email approved and sent successfully!"
      let draft_data := { draft_data with
        status := "approved", approved_by := some user_id, approved_at := some now }
      ({ h with pending_drafts := pyInsert h.pending_drafts draft_id draft_data }, eff)
    | none =>
      let eff := sayEff eff "Failed to send email. Please try again."
      (cleanup_draft h draft_id, eff)

/-- `_handle_reject`: updates the original message, reports the rejection, and
writes `status/rejected_by/rejected_at` into the draft dict. -/
def handle_reject (now : Int) (h : DraftApprovalHandler)
    (draft_id user_id : String) (eff : HandlerEffects) :
    DraftApprovalHandler × HandlerEffects :=
  match pyGet h.pending_drafts draft_id with
  | none => (h, sayEff eff "An error occurred while rejecting the draft.")
  | some draft_data =>
    let eff := update_original_message h draft_id "REJECTED" eff
    let eff := sayEff eff "Email draft rejected."
    let draft_data := { draft_data with
      status := "rejected", rejected_by := some user_id, rejected_at := some now }
    ({ h with pending_drafts := pyInsert h.pending_drafts draft_id draft_data }, eff)

/-- `_handle_save`: calls `gmail_writer.save_draft`, updates the original
message, and reports success. It writes nothing back into the draft dict:
no status transition and no timestamp. -/
def handle_save (h : DraftApprovalHandler) (draft_id user_id : String)
    (eff : HandlerEffects) : DraftApprovalHandler × HandlerEffects :=
  match pyGet h.pending_drafts draft_id with
  | none => (h, sayEff eff "An error occurred while processing save request.")
  | some draft_data =>
    let eff := { eff with mail := eff.mail ++ [.saveDraft draft_data.draft] }
    let eff := update_original_message h draft_id "SAVED" eff
    let eff := sayEff eff "Email draft saved successfully."
    (h, eff)

/-- `handle_approval_action`: splits the button `value` into
`action_type, draft_id`; a draft id absent from `pending_drafts` or past its
`draft_timeouts` expiry gets an expiry message (the latter also cleans up);
otherwise dispatches on the action type. Only *membership* in
`pending_drafts` is checked — the stored `status` is never consulted. -/
def handle_approval_action (w : WriterOracle) (now : Int)
    (h : DraftApprovalHandler) (value user_id : String) (eff : HandlerEffects) :
    DraftApprovalHandler × HandlerEffects :=
  match splitOnceUnderscore value with
  | none => (h, sayEff eff "An error occurred while processing your request.")
  | some (action_type, draft_id) =>
    if (pyGet h.pending_drafts draft_id).isNone then
      (h, sayEff eff "This draft has expired or doesn't exist.")
    else
      match pyGet h.draft_timeouts draft_id with
      | none => (h, sayEff eff "An error occurred while processing your request.")
      | some expiry =>
        if now > expiry then
          (cleanup_draft h draft_id, sayEff eff "This draft has expired.")
        else if action_type = "approve" then
          handle_approve w now h draft_id user_id eff
        else if action_type = "reject" then
          handle_reject now h draft_id user_id eff
        else if action_type = "save" then
          handle_save h draft_id user_id eff
        else
          (h, sayEff eff "Unknown action.")

/-! ## Concrete fixtures used to evaluate the model -/

/-- Whether a dynamic value is a live `EmailMessage` model object (used to
observe what a serialization round trip loses). -/
def isEmailModel : PyVal → Bool
  | .pemail _ => true
  | _ => false

/-- First-occurrence key order of a list of ids (specification device for the
dict-comprehension de-duplication). -/
def insertIfAbsent (acc : List String) (x : String) : List String :=
  if acc.contains x then acc else acc ++ [x]

/-- The ids of a message list in order of first occurrence. -/
def firstOccurIds (ids : List String) : List String :=
  ids.foldl insertIfAbsent []

/-- A collaborator assignment with an empty inbox and inert generators. -/
def trivialCollab : Collab where
  read_emails := []
  thread_emails := fun _ => []
  summary_result := .ok none
  analysis_result := .ok []
  draft_content := fun _ _ => .ok none
  create_draft := fun _ _ => .error "unused"
  send_for_approval := fun _ _ => .ok "approval-id-1"

/-- A store entry whose envelope carries an unexpected type tag. -/
def envBad : Envelope :=
  { type_tag := "SomeOtherState", version := "1.0", timestamp := 0,
    data := .pdict [] }

/-- A state manager holding only the corrupted entry for user "U1". -/
def smBad : StateManager :=
  { memory_store := [("U1", envBad)] }

/-- A fresh state for user "U1" (all other fields at their defaults). -/
def stPlain : GmailAgentState :=
  { user_id := "U1", thread_id := "T1" }

/-- A store holding only `stPlain`, saved at time 0. -/
def storePlain : StateManager :=
  StateManager.save_state {} 0 stPlain

/-- A concrete email fixture. -/
def emailA : EmailMessage :=
  { id := "m1", subject := "hello", from_email := "a@x.com", to_email := "b@x.com",
    date := "2025-01-01", body := "hi", is_read := false, is_important := false,
    thread_id := "t1" }

/-- A concrete Gmail draft fixture. -/
def draftA : Draft := { id := "draft-A" }

/-- A concrete draft-response entry as `_create_draft_responses` builds it:
a dict holding the live `EmailMessage` model and the Gmail draft object. -/
def respAVal : PyVal :=
  .pdict [("email_id", .pstr "m1"), ("draft", .pdraft draftA),
    ("priority", .pstr "High"), ("original_email", .pemail emailA),
    ("draft_content", .pstr "Dear A,")]

/-- A suspended state: one pending draft at the cursor, awaiting a decision
since time 0. -/
def stSuspended : GmailAgentState :=
  { user_id := "U1", thread_id := "T1", draft_responses := [respAVal],
    current_draft_index := 0, awaiting_approval := true,
    awaiting_approval_since := some 0 }

/-- A store holding only `stSuspended`, saved at time 0. -/
def storeSuspended : StateManager :=
  StateManager.save_state {} 0 stSuspended

/-- A pending approval-request dict for `draftA`. -/
def ddPending : DraftData :=
  { draft := draftA, user_id := "U1", created_at := 0, status := "pending",
    slack_message_ts := some "1234.5678", slack_channel := some "U1" }

/-- A handler with one pending draft "d1" expiring at time 86400. -/
def hPending : DraftApprovalHandler :=
  { pending_drafts := [("d1", ddPending)], draft_timeouts := [("d1", 86400)] }

/-- A writer oracle whose `send_draft` always succeeds. -/
def writerOk : WriterOracle := { send_draft := fun _ => some "sent-message-id" }

/-- First approve click on "d1". -/
def approveOnce : DraftApprovalHandler × HandlerEffects :=
  handle_approval_action writerOk 10 hPending "approve_d1" "U1" {}

/-- Second approve click on the already-approved "d1". -/
def approveTwice : DraftApprovalHandler × HandlerEffects :=
  handle_approval_action writerOk 20 approveOnce.1 "approve_d1" "U1" approveOnce.2

/-- A reject click arriving after "d1" was already approved. -/
def rejectAfterApprove : DraftApprovalHandler × HandlerEffects :=
  handle_approval_action writerOk 30 approveOnce.1 "reject_d1" "U1" approveOnce.2

/-- A save click on the pending "d1". -/
def saveOnce : DraftApprovalHandler × HandlerEffects :=
  handle_approval_action writerOk 10 hPending "save_d1" "U1" {}

/-- The state persisted for "U1" after one decision trigger on `storePlain`. -/
def stPlainResumed : GmailAgentState :=
  (((resume_workflow_after_action trivialCollab 0 stPlain.user_id
      storePlain).store.load_state stPlain.user_id)).getD stPlain

/-! ## Round-trip lemmas for the serialization layer -/

theorem optMapList_map (f : β → Option α) (enc : α → β)
    (h : ∀ x, f (enc x) = some x) :
    ∀ l : List α, optMapList f (l.map enc) = some l := by
  intro l
  induction l with
  | nil => rfl
  | cons x xs ih => simp [optMapList, h, ih]

theorem email_validate_model_dump (e : EmailMessage) :
    EmailMessage.validate e.model_dump = some e := rfl

theorem decEmailList_dump (l : List EmailMessage) :
    decEmailList (.plist (l.map EmailMessage.model_dump)) = some l := by
  simp [decEmailList,
    optMapList_map EmailMessage.validate EmailMessage.model_dump email_validate_model_dump]

theorem decRawDict_dump (d : List (String × PyVal)) :
    decRawDict (.pdict d) = some d := rfl

theorem summary_validate_model_dump (s : EmailSummary) :
    EmailSummary.validate s.model_dump = some (reloadSummary s) := by
  simp [EmailSummary.validate, EmailSummary.model_dump, pyGet, List.find?,
    decEmailList_dump, decRawDict, decInt, decStr, Option.bind, reloadSummary]

theorem email_info_validate_model_dump (i : EmailInfo) :
    EmailInfo.validate i.model_dump = some i := rfl

theorem decEmailInfoList_dump (l : List EmailInfo) :
    decEmailInfoList (.plist (l.map EmailInfo.model_dump)) = some l := by
  simp [decEmailInfoList,
    optMapList_map EmailInfo.validate EmailInfo.model_dump email_info_validate_model_dump]

theorem decOpt_summary_dump (x : Option EmailSummary) :
    decOpt EmailSummary.validate (encOpt EmailSummary.model_dump x)
      = some (x.map reloadSummary) := by
  cases x with
  | none => rfl
  | some s =>
    show (EmailSummary.validate s.model_dump).map some = some (some (reloadSummary s))
    rw [summary_validate_model_dump]
    rfl

theorem decOpt_int_enc (x : Option Int) :
    decOpt decInt (encOpt PyVal.pint x) = some x := by
  cases x <;> rfl

theorem decOpt_str_enc (x : Option String) :
    decOpt decStr (encOpt PyVal.pstr x) = some x := by
  cases x <;> rfl

theorem isPyDict_dumpPyVal (v : PyVal) (h : isPyDict v = true) :
    isPyDict (dumpPyVal v) = true := by
  cases v <;> simp_all [isPyDict, dumpPyVal]

theorem all_isPyDict_dump (l : List PyVal) (h : l.all isPyDict = true) :
    (l.map dumpPyVal).all isPyDict = true := by
  induction l with
  | nil => rfl
  | cons x xs ih =>
    simp only [List.all_cons, Bool.and_eq_true] at h
    simp only [List.map_cons, List.all_cons, Bool.and_eq_true]
    exact ⟨isPyDict_dumpPyVal x h.1, ih h.2⟩

theorem decDictList_dump (l : List PyVal) (h : l.all isPyDict = true) :
    decDictList (.plist (l.map dumpPyVal)) = some (l.map dumpPyVal) := by
  simp [decDictList, all_isPyDict_dump l h]

theorem decDictList_all_dict (v : PyVal) (l : List PyVal)
    (h : decDictList v = some l) : l.all isPyDict = true := by
  cases v with
  | plist xs =>
    simp only [decDictList] at h
    split at h
    · rename_i hall
      injection h with h
      rw [← h]
      exact hall
    · exact Option.noConfusion h
  | pstr s => exact Option.noConfusion h
  | pint n => exact Option.noConfusion h
  | pbool b => exact Option.noConfusion h
  | pnone => exact Option.noConfusion h
  | pdict d => exact Option.noConfusion h
  | pemail e => exact Option.noConfusion h
  | pdraft d => exact Option.noConfusion h

theorem agent_state_validate_model_dump (s : GmailAgentState)
    (h : WellFormedState s) :
    GmailAgentState.validate s.model_dump = some (reloadState s) := by
  simp [GmailAgentState.validate, GmailAgentState.model_dump, pyGet, List.find?,
    decEmailList_dump, decOpt_summary_dump, decOpt_int_enc, decOpt_str_enc,
    decEmailInfoList_dump, decInt, decStr, decBool, Option.bind,
    decDictList_dump s.draft_responses h.1,
    decDictList_dump s.pending_approvals h.2, reloadState]

theorem extract_langgraph_state_dump (s : GmailAgentState) :
    extract_langgraph_state s.model_dump = s.model_dump := rfl

/-! ## Python-dict lemmas -/

theorem pyGet_nil (k : String) : pyGet ([] : List (String × α)) k = none := rfl

theorem pyGet_cons (p : String × α) (l : List (String × α)) (k : String) :
    pyGet (p :: l) k = if p.1 = k then some p.2 else pyGet l k := by
  by_cases h : p.1 = k
  · have hf : List.find? (fun q => q.1 == k) (p :: l) = some p :=
      List.find?_cons_of_pos _ (by simpa using h)
    simp [pyGet, hf, h]
  · have hf : List.find? (fun q => q.1 == k) (p :: l) = List.find? (fun q => q.1 == k) l :=
      List.find?_cons_of_neg _ (by simpa using h)
    simp [pyGet, hf, h]

theorem pyGet_map_update (l : List (String × α)) (k : String) (v : α)
    (h : k ∈ l.map Prod.fst) :
    pyGet (l.map (fun p => if p.1 = k then (k, v) else p)) k = some v := by
  induction l with
  | nil => simp at h
  | cons p ps ih =>
    by_cases hpk : p.1 = k
    · simp [pyGet_cons, hpk]
    · have h' : k ∈ ps.map Prod.fst := by
        rcases List.mem_cons.mp h with h1 | h1
        · exact absurd h1.symm hpk
        · exact h1
      simpa [pyGet_cons, hpk] using ih h'

theorem pyGet_append_absent (l : List (String × α)) (k : String) (v : α)
    (h : k ∉ l.map Prod.fst) :
    pyGet (l ++ [(k, v)]) k = some v := by
  induction l with
  | nil => simp [pyGet_cons]
  | cons p ps ih =>
    have hpk : ¬(p.1 = k) := fun he => h (by simp [he])
    have h' : k ∉ ps.map Prod.fst := fun hm => h (by simp [List.mem_cons]; right; simpa using hm)
    simpa [pyGet_cons, hpk] using ih h'

theorem pyGet_pyInsert_self (l : List (String × α)) (k : String) (v : α) :
    pyGet (pyInsert l k v) k = some v := by
  unfold pyInsert
  by_cases h : k ∈ l.map Prod.fst
  · rw [if_pos (by simpa [List.elem_iff] using h)]
    exact pyGet_map_update l k v h
  · rw [if_neg (by simpa [List.elem_iff] using h)]
    exact pyGet_append_absent l k v h

theorem pyGet_map_update_ne (l : List (String × α)) (k k' : String) (v : α)
    (h : k ≠ k') :
    pyGet (l.map (fun p => if p.1 = k then (k, v) else p)) k' = pyGet l k' := by
  induction l with
  | nil => rfl
  | cons p ps ih =>
    by_cases hpk : p.1 = k
    · have hkk : ¬((k, v).1 = k') := h
      have hpk' : ¬(p.1 = k') := by rw [hpk]; exact h
      simpa [pyGet_cons, hpk, hkk, hpk'] using ih
    · by_cases hpk' : p.1 = k'
      · have hk'k : ¬(k' = k) := fun e => h e.symm
        simp [pyGet_cons, hpk, hpk', hk'k]
      · simpa [pyGet_cons, hpk, hpk'] using ih

theorem pyGet_append_ne (l : List (String × α)) (k k' : String) (v : α)
    (h : k ≠ k') :
    pyGet (l ++ [(k, v)]) k' = pyGet l k' := by
  induction l with
  | nil => simp [pyGet_cons, h, pyGet_nil]
  | cons p ps ih =>
    by_cases hpk' : p.1 = k'
    · simp [pyGet_cons, hpk']
    · simpa [pyGet_cons, hpk'] using ih

theorem pyGet_pyInsert_ne (l : List (String × α)) (k k' : String) (v : α)
    (h : k ≠ k') :
    pyGet (pyInsert l k v) k' = pyGet l k' := by
  unfold pyInsert
  by_cases hm : k ∈ l.map Prod.fst
  · rw [if_pos (by simpa [List.elem_iff] using hm)]
    exact pyGet_map_update_ne l k k' v h
  · rw [if_neg (by simpa [List.elem_iff] using hm)]
    exact pyGet_append_ne l k k' v h

/-! ## State Store lemmas -/

theorem load_state_after_save (sm : StateManager) (now : Int)
    (st : GmailAgentState) (h : WellFormedState st) :
    (sm.save_state now st).load_state st.user_id = some (reloadState st) := by
  simp only [StateManager.load_state, StateManager.load_state_attempt,
    StateManager.save_state]
  rw [pyGet_pyInsert_self]
  simp [extract_langgraph_state_dump, agent_state_validate_model_dump st h]

theorem load_state_after_save_ne (sm : StateManager) (now : Int)
    (st : GmailAgentState) (uid : String) (h : st.user_id ≠ uid) :
    (sm.save_state now st).load_state uid = sm.load_state uid := by
  simp only [StateManager.load_state, StateManager.load_state_attempt,
    StateManager.save_state]
  rw [pyGet_pyInsert_ne _ _ _ _ h]

/-! ## Well-formedness: pydantic-constructed states hold only dicts in the
`List[Dict]` fields -/

theorem validate_wellFormed (v : PyVal) (st : GmailAgentState)
    (h : GmailAgentState.validate v = some st) : WellFormedState st := by
  cases v with
  | pdict d =>
    rcases Option.bind_eq_some.mp h with ⟨u, -, h⟩
    rcases Option.bind_eq_some.mp h with ⟨t, -, h⟩
    rcases Option.bind_eq_some.mp h with ⟨ue, -, h⟩
    rcases Option.bind_eq_some.mp h with ⟨es, -, h⟩
    rcases Option.bind_eq_some.mp h with ⟨cei, -, h⟩
    rcases Option.bind_eq_some.mp h with ⟨pe, -, h⟩
    rcases Option.bind_eq_some.mp h with ⟨dr, hdr, h⟩
    rcases Option.bind_eq_some.mp h with ⟨pa, hpa, h⟩
    rcases Option.bind_eq_some.mp h with ⟨cdi, -, h⟩
    rcases Option.bind_eq_some.mp h with ⟨aa, -, h⟩
    rcases Option.bind_eq_some.mp h with ⟨aas, -, h⟩
    rcases Option.bind_eq_some.mp h with ⟨sc, -, h⟩
    rcases Option.bind_eq_some.mp h with ⟨em, -, h⟩
    rcases Option.bind_eq_some.mp h with ⟨fs, -, h⟩
    rcases Option.bind_eq_some.mp h with ⟨wc, -, h⟩
    injection h with h
    subst h
    rcases Option.bind_eq_some.mp hdr with ⟨vdr, -, hdr⟩
    rcases Option.bind_eq_some.mp hpa with ⟨vpa, -, hpa⟩
    exact ⟨decDictList_all_dict vdr dr hdr, decDictList_all_dict vpa pa hpa⟩
  | pstr s => exact Option.noConfusion h
  | pint n => exact Option.noConfusion h
  | pbool b => exact Option.noConfusion h
  | pnone => exact Option.noConfusion h
  | plist xs => exact Option.noConfusion h
  | pemail e => exact Option.noConfusion h
  | pdraft d => exact Option.noConfusion h

theorem load_state_attempt_wellFormed (sm : StateManager) (uid : String)
    (st : GmailAgentState)
    (h : sm.load_state_attempt uid = .ok (some st)) : WellFormedState st := by
  unfold StateManager.load_state_attempt at h
  split at h
  · injection h with h
    exact Option.noConfusion h
  · split at h
    · exact Except.noConfusion h
    · split at h
      · rename_i st' hval
        injection h with h
        injection h with h
        subst h
        exact validate_wellFormed _ _ hval
      · exact Except.noConfusion h

theorem load_state_wellFormed (sm : StateManager) (uid : String)
    (st : GmailAgentState) (h : sm.load_state uid = some st) :
    WellFormedState st := by
  unfold StateManager.load_state at h
  split at h
  · rename_i r hr
    rw [h] at hr
    exact load_state_attempt_wellFormed sm uid st hr
  · exact Option.noConfusion h

theorem generate_email_summary_dicts (c : Collab) (s : GmailAgentState) :
    (generate_email_summary c s).draft_responses = s.draft_responses
    ∧ (generate_email_summary c s).pending_approvals = s.pending_approvals := by
  unfold generate_email_summary
  split
  · exact ⟨rfl, rfl⟩
  · split <;> exact ⟨rfl, rfl⟩

theorem process_emails_for_drafts_dicts (c : Collab) (s : GmailAgentState) :
    (process_emails_for_drafts c s).draft_responses = s.draft_responses
    ∧ (process_emails_for_drafts c s).pending_approvals = s.pending_approvals := by
  unfold process_emails_for_drafts
  split
  · exact ⟨rfl, rfl⟩
  · split <;> exact ⟨rfl, rfl⟩

theorem build_draft_responses_all_dict (c : Collab) (unread : List EmailMessage) :
    ∀ (infos : List EmailInfo) (l : List PyVal),
      build_draft_responses c unread infos = .ok l → l.all isPyDict = true := by
  intro infos
  induction infos with
  | nil =>
    intro l h
    injection h with h
    rw [← h]
    rfl
  | cons info rest ih =>
    intro l h
    unfold build_draft_responses at h
    split at h
    · exact ih l h
    · split at h
      · exact Except.noConfusion h
      · dsimp only at h
        split at h
        · exact ih l h
        · cases hb : build_draft_responses c unread rest with
          | error e =>
            rw [hb] at h
            exact Except.noConfusion h
          | ok tail =>
            rw [hb] at h
            simp only [Except.map] at h
            injection h with h
            rw [← h]
            simp only [List.all_cons, Bool.and_eq_true]
            exact ⟨rfl, ih tail hb⟩

theorem create_draft_responses_wellFormed (c : Collab) (s : GmailAgentState)
    (h : WellFormedState s) : WellFormedState (create_draft_responses c s) := by
  unfold create_draft_responses
  split
  · exact h
  · split
    · exact h
    · rename_i drs hbuild
      exact ⟨build_draft_responses_all_dict c s.unread_emails s.processed_emails
        drs hbuild, h.2⟩

theorem send_drafts_to_slack_wellFormed (c : Collab) (now : Int)
    (store : StateManager) (s s' : GmailAgentState)
    (h : (send_drafts_to_slack c now store s).result = .ok s')
    (hw : WellFormedState s) : WellFormedState s' := by
  unfold send_drafts_to_slack at h
  split at h
  · rw [Except.ok.injEq] at h
    subst h
    exact hw
  · split at h
    · split at h
      · exact absurd h (by simp)
      · split at h
        · rw [Except.ok.injEq] at h
          subst h
          exact hw
        · rw [Except.ok.injEq] at h
          subst h
          exact hw
    · split at h
      · exact absurd h (by simp)
      · split at h
        · exact absurd h (by simp)
        · split at h
          · exact absurd h (by simp)
          · split at h
            · exact absurd h (by simp)
            · rw [Except.ok.injEq] at h
              subst h
              exact hw

theorem runNode_wellFormed (c : Collab) (now : Int) (store : StateManager)
    (n : Node) (s s' : GmailAgentState)
    (h : (runNode c now store n s).result = .ok s')
    (hw : WellFormedState s) : WellFormedState s' := by
  cases n with
  | read_unread_emails =>
    rw [show (runNode c now store .read_unread_emails s).result
        = .ok (read_unread_emails c s) from rfl, Except.ok.injEq] at h
    subst h
    exact hw
  | generate_email_summary =>
    rw [show (runNode c now store .generate_email_summary s).result
        = .ok (generate_email_summary c s) from rfl, Except.ok.injEq] at h
    subst h
    have hd := generate_email_summary_dicts c s
    exact ⟨by rw [hd.1]; exact hw.1, by rw [hd.2]; exact hw.2⟩
  | process_emails_for_drafts =>
    rw [show (runNode c now store .process_emails_for_drafts s).result
        = .ok (process_emails_for_drafts c s) from rfl, Except.ok.injEq] at h
    subst h
    have hd := process_emails_for_drafts_dicts c s
    exact ⟨by rw [hd.1]; exact hw.1, by rw [hd.2]; exact hw.2⟩
  | create_draft_responses =>
    rw [show (runNode c now store .create_draft_responses s).result
        = .ok (create_draft_responses c s) from rfl, Except.ok.injEq] at h
    subst h
    exact create_draft_responses_wellFormed c s hw
  | send_drafts_to_slack => exact send_drafts_to_slack_wellFormed c now store s s' h hw
  | wait_for_user_action =>
    rw [show (runNode c now store .wait_for_user_action s).result
        = .ok (wait_for_user_action s) from rfl, Except.ok.injEq] at h
    subst h
    exact hw
  | send_final_summary =>
    rw [show (runNode c now store .send_final_summary s).result
        = .ok (send_final_summary s) from rfl, Except.ok.injEq] at h
    subst h
    exact hw

theorem runGraph_states_wellFormed (c : Collab) (now : Int) :
    ∀ (fuel : Nat) (n : Node) (s : GmailAgentState) (store : StateManager),
      WellFormedState s →
      ∀ s' ∈ (runGraph c now fuel n s store).states, WellFormedState s' := by
  intro fuel
  induction fuel with
  | zero =>
    intro n s store _ s' hs
    simp [runGraph] at hs
  | succ fuel ih =>
    intro n s store hw s' hs
    simp only [runGraph] at hs
    split at hs
    · simp at hs
    · rename_i s1 hres
      split at hs
      · rename_i hnext
        simp at hs
        subst hs
        exact runNode_wellFormed c now store n s s' hres hw
      · rename_i n' hnext
        simp only [List.mem_cons] at hs
        rcases hs with hs | hs
        · subst hs
          exact runNode_wellFormed c now store n s s' hres hw
        · exact ih n' s1 (runNode c now store n s).store
            (runNode_wellFormed c now store n s s1 hres hw) s' hs

theorem resume_final_state_wellFormed (c : Collab) (now : Int)
    (store : StateManager) (st : GmailAgentState) (h : WellFormedState st) :
    WellFormedState (((streamWorkflow c now (bridgeMutate st) store).states.getLast?).getD
      (bridgeMutate st)) := by
  cases hgl : (streamWorkflow c now (bridgeMutate st) store).states.getLast? with
  | none => exact h
  | some x =>
    exact runGraph_states_wellFormed c now RECURSION_LIMIT Node.read_unread_emails
      (bridgeMutate st) store h x (List.mem_of_mem_getLast? hgl)

/-! ## De-duplication lemmas (dict-comprehension semantics) -/

theorem pyInsert_keys (l : List (String × α)) (k : String) (v : α) :
    (pyInsert l k v).map Prod.fst = insertIfAbsent (l.map Prod.fst) k := by
  unfold pyInsert insertIfAbsent
  by_cases h : ((l.map Prod.fst).contains k) = true
  · rw [if_pos h, if_pos h, List.map_map]
    apply List.map_congr_left
    intro p _
    by_cases hpk : p.1 = k
    · simp [Function.comp, hpk]
    · simp [Function.comp, hpk]
  · rw [if_neg h, if_neg h]
    simp

theorem foldl_pyInsert_keys (es : List EmailMessage) :
    ∀ acc : List (String × EmailMessage),
      (es.foldl (fun a e => pyInsert a e.id e) acc).map Prod.fst
        = (es.map EmailMessage.id).foldl insertIfAbsent (acc.map Prod.fst) := by
  induction es with
  | nil => intro acc; rfl
  | cons e es ih =>
    intro acc
    simp only [List.foldl_cons, List.map_cons]
    rw [ih, pyInsert_keys]

theorem pyInsert_mem (l : List (String × α)) (k : String) (v : α) :
    ∀ p ∈ pyInsert l k v, p ∈ l ∨ p = (k, v) := by
  unfold pyInsert
  by_cases h : ((l.map Prod.fst).contains k) = true
  · rw [if_pos h]
    intro p hp
    rcases List.mem_map.mp hp with ⟨q, hq, he⟩
    by_cases hqk : q.1 = k
    · right
      rw [← he]
      simp [hqk]
    · left
      rw [← he]
      simpa [hqk] using hq
  · rw [if_neg h]
    intro p hp
    rcases List.mem_append.mp hp with h1 | h1
    · left; exact h1
    · right; simpa using h1

theorem foldl_pyInsert_id_inv (es : List EmailMessage) :
    ∀ acc : List (String × EmailMessage), (∀ p ∈ acc, p.2.id = p.1) →
      ∀ p ∈ es.foldl (fun a e => pyInsert a e.id e) acc, p.2.id = p.1 := by
  induction es with
  | nil => intro acc h; exact h
  | cons e es ih =>
    intro acc h
    refine ih _ ?_
    intro p hp
    rcases pyInsert_mem acc e.id e p hp with h1 | h1
    · exact h p h1
    · rw [h1]

theorem insertIfAbsent_nodup (acc : List String) (x : String) (h : acc.Nodup) :
    (insertIfAbsent acc x).Nodup := by
  unfold insertIfAbsent
  by_cases hc : (acc.contains x) = true
  · rw [if_pos hc]; exact h
  · rw [if_neg hc]
    have hx : x ∉ acc := by simpa [List.elem_iff] using hc
    simp [List.nodup_append, h, hx]

theorem foldl_insertIfAbsent_nodup (ids : List String) :
    ∀ acc : List String, acc.Nodup → (ids.foldl insertIfAbsent acc).Nodup := by
  induction ids with
  | nil => intro acc h; exact h
  | cons x xs ih =>
    intro acc h
    exact ih _ (insertIfAbsent_nodup acc x h)

theorem firstOccurIds_nodup (ids : List String) : (firstOccurIds ids).Nodup :=
  foldl_insertIfAbsent_nodup ids [] List.nodup_nil

theorem dedupById_ids (es : List EmailMessage) :
    (dedupById es).map EmailMessage.id = firstOccurIds (es.map EmailMessage.id) := by
  unfold dedupById firstOccurIds
  have hinv := foldl_pyInsert_id_inv es [] (by intro p hp; simp at hp)
  rw [List.map_map]
  have heq : ((es.foldl (fun a e => pyInsert a e.id e) []).map (EmailMessage.id ∘ Prod.snd))
      = ((es.foldl (fun a e => pyInsert a e.id e) []).map Prod.fst) := by
    apply List.map_congr_left
    intro p hp
    exact hinv p hp
  rw [heq, foldl_pyInsert_keys es []]
  rfl

theorem dedupById_ids_nodup (es : List EmailMessage) :
    ((dedupById es).map EmailMessage.id).Nodup := by
  rw [dedupById_ids]
  exact firstOccurIds_nodup _

/-! ## Engine step lemmas: cursor monotonicity and user-id preservation -/

theorem generate_email_summary_preserves (c : Collab) (s : GmailAgentState) :
    (generate_email_summary c s).current_draft_index = s.current_draft_index
    ∧ (generate_email_summary c s).user_id = s.user_id := by
  unfold generate_email_summary
  split
  · exact ⟨rfl, rfl⟩
  · split <;> exact ⟨rfl, rfl⟩

theorem process_emails_for_drafts_preserves (c : Collab) (s : GmailAgentState) :
    (process_emails_for_drafts c s).current_draft_index = s.current_draft_index
    ∧ (process_emails_for_drafts c s).user_id = s.user_id := by
  unfold process_emails_for_drafts
  split
  · exact ⟨rfl, rfl⟩
  · split <;> exact ⟨rfl, rfl⟩

theorem create_draft_responses_preserves (c : Collab) (s : GmailAgentState) :
    (create_draft_responses c s).current_draft_index = s.current_draft_index
    ∧ (create_draft_responses c s).user_id = s.user_id := by
  unfold create_draft_responses
  split
  · exact ⟨rfl, rfl⟩
  · split <;> exact ⟨rfl, rfl⟩

theorem send_drafts_to_slack_stepOk (c : Collab) (now : Int) (store : StateManager)
    (s s' : GmailAgentState)
    (h : (send_drafts_to_slack c now store s).result = .ok s') :
    s.current_draft_index ≤ s'.current_draft_index ∧ s'.user_id = s.user_id := by
  unfold send_drafts_to_slack at h
  split at h
  · rw [Except.ok.injEq] at h
    subst h
    exact ⟨le_refl _, rfl⟩
  · split at h
    · split at h
      · exact absurd h (by simp)
      · split at h
        · rw [Except.ok.injEq] at h
          subst h
          refine ⟨?_, rfl⟩
          show s.current_draft_index ≤ s.current_draft_index + 1
          omega
        · rw [Except.ok.injEq] at h
          subst h
          exact ⟨le_refl _, rfl⟩
    · split at h
      · exact absurd h (by simp)
      · split at h
        · exact absurd h (by simp)
        · split at h
          · exact absurd h (by simp)
          · split at h
            · exact absurd h (by simp)
            · rw [Except.ok.injEq] at h
              subst h
              exact ⟨le_refl _, rfl⟩

theorem runNode_stepOk (c : Collab) (now : Int) (store : StateManager)
    (n : Node) (s s' : GmailAgentState)
    (h : (runNode c now store n s).result = .ok s') :
    s.current_draft_index ≤ s'.current_draft_index ∧ s'.user_id = s.user_id := by
  cases n with
  | read_unread_emails =>
    rw [show (runNode c now store .read_unread_emails s).result
        = .ok (read_unread_emails c s) from rfl, Except.ok.injEq] at h
    subst h
    exact ⟨le_refl _, rfl⟩
  | generate_email_summary =>
    rw [show (runNode c now store .generate_email_summary s).result
        = .ok (generate_email_summary c s) from rfl, Except.ok.injEq] at h
    subst h
    exact ⟨le_of_eq (generate_email_summary_preserves c s).1.symm,
      (generate_email_summary_preserves c s).2⟩
  | process_emails_for_drafts =>
    rw [show (runNode c now store .process_emails_for_drafts s).result
        = .ok (process_emails_for_drafts c s) from rfl, Except.ok.injEq] at h
    subst h
    exact ⟨le_of_eq (process_emails_for_drafts_preserves c s).1.symm,
      (process_emails_for_drafts_preserves c s).2⟩
  | create_draft_responses =>
    rw [show (runNode c now store .create_draft_responses s).result
        = .ok (create_draft_responses c s) from rfl, Except.ok.injEq] at h
    subst h
    exact ⟨le_of_eq (create_draft_responses_preserves c s).1.symm,
      (create_draft_responses_preserves c s).2⟩
  | send_drafts_to_slack => exact send_drafts_to_slack_stepOk c now store s s' h
  | wait_for_user_action =>
    rw [show (runNode c now store .wait_for_user_action s).result
        = .ok (wait_for_user_action s) from rfl, Except.ok.injEq] at h
    subst h
    exact ⟨le_refl _, rfl⟩
  | send_final_summary =>
    rw [show (runNode c now store .send_final_summary s).result
        = .ok (send_final_summary s) from rfl, Except.ok.injEq] at h
    subst h
    exact ⟨le_refl _, rfl⟩

theorem runGraph_states_stepOk (c : Collab) (now : Int) :
    ∀ (fuel : Nat) (n : Node) (s : GmailAgentState) (store : StateManager),
      ∀ s' ∈ (runGraph c now fuel n s store).states,
        s.current_draft_index ≤ s'.current_draft_index ∧ s'.user_id = s.user_id := by
  intro fuel
  induction fuel with
  | zero =>
    intro n s store s' hs
    simp [runGraph] at hs
  | succ fuel ih =>
    intro n s store s' hs
    simp only [runGraph] at hs
    split at hs
    · simp at hs
    · rename_i s1 hres
      split at hs
      · rename_i hnext
        simp at hs
        subst hs
        exact runNode_stepOk c now store n s s' hres
      · rename_i n' hnext
        simp only [List.mem_cons] at hs
        rcases hs with hs | hs
        · subst hs
          exact runNode_stepOk c now store n s s' hres
        · have h1 := runNode_stepOk c now store n s s1 hres
          have h2 := ih n' s1 (runNode c now store n s).store s' hs
          exact ⟨le_trans h1.1 h2.1, h2.2.trans h1.2⟩

theorem runGraph_trace_head (c : Collab) (now : Int) (fuel : Nat) (n : Node)
    (s : GmailAgentState) (store : StateManager) :
    (runGraph c now (fuel + 1) n s store).trace.head? = some n := by
  simp only [runGraph]
  split
  · rfl
  · split <;> rfl

theorem gate_awaiting_eq (c : Collab) (now since : Int) (store : StateManager)
    (s : GmailAgentState) (h0 : 0 ≤ s.current_draft_index)
    (h1 : s.current_draft_index < (s.draft_responses.length : Int))
    (h2 : s.awaiting_approval = true)
    (h3 : s.awaiting_approval_since = some since) :
    send_drafts_to_slack c now store s =
      if now - since > TIMEOUT_SECONDS then
        { result := .ok { s with
            awaiting_approval := false,
            current_draft_index := s.current_draft_index + 1 },
          published := [], store := store }
      else { result := .ok s, published := [], store := store } := by
  have hne : s.draft_responses.isEmpty = false := by
    cases hd : s.draft_responses with
    | nil =>
      rw [hd] at h1
      simp at h1
      omega
    | cons a l => rfl
  have hcond : ¬((s.draft_responses.isEmpty
      || decide (s.current_draft_index ≥ (s.draft_responses.length : Int))) = true) := by
    rw [hne]
    simp
    omega
  unfold send_drafts_to_slack
  rw [if_neg hcond, if_pos h2, h3]

/-! ## Resume Bridge lemmas -/

theorem resume_run_eq (c : Collab) (now : Int) (uid : String)
    (store : StateManager) (st : GmailAgentState)
    (h : load_state_from_store store uid = some st) :
    (resume_workflow_after_action c now uid store).run
      = some (streamWorkflow c now (bridgeMutate st) store) := by
  simp only [resume_workflow_after_action, h]
  cases ho : (streamWorkflow c now (bridgeMutate st) store).outcome <;> rfl

theorem resume_outcome_finished (c : Collab) (now : Int) (uid : String)
    (store : StateManager) (st : GmailAgentState)
    (h : load_state_from_store store uid = some st)
    (hok : (resume_workflow_after_action c now uid store).outcome = .ok ()) :
    (streamWorkflow c now (bridgeMutate st) store).outcome = .finished := by
  simp only [resume_workflow_after_action, h] at hok
  cases ho : (streamWorkflow c now (bridgeMutate st) store).outcome with
  | finished => rfl
  | raised e =>
    rw [ho] at hok
    exact absurd hok (by simp)
  | recursionLimit =>
    rw [ho] at hok
    exact absurd hok (by simp)

theorem resume_store_of_finished (c : Collab) (now : Int) (uid : String)
    (store : StateManager) (st : GmailAgentState)
    (h : load_state_from_store store uid = some st)
    (hf : (streamWorkflow c now (bridgeMutate st) store).outcome = .finished) :
    (resume_workflow_after_action c now uid store).store
      = save_state_to_store (streamWorkflow c now (bridgeMutate st) store).store now
          (((streamWorkflow c now (bridgeMutate st) store).states.getLast?).getD
            (bridgeMutate st)) := by
  simp only [resume_workflow_after_action, h]
  rw [hf]

theorem resume_responds_of_finished (c : Collab) (now : Int) (uid : String)
    (store : StateManager) (st : GmailAgentState)
    (h : load_state_from_store store uid = some st)
    (hf : (streamWorkflow c now (bridgeMutate st) store).outcome = .finished) :
    (resume_workflow_after_action c now uid store).responds.length = 1 := by
  simp only [resume_workflow_after_action, h]
  rw [hf]
  rfl

theorem resume_final_state_props (c : Collab) (now : Int) (store : StateManager)
    (st : GmailAgentState) :
    (bridgeMutate st).current_draft_index
        ≤ (((streamWorkflow c now (bridgeMutate st) store).states.getLast?).getD
            (bridgeMutate st)).current_draft_index
    ∧ (((streamWorkflow c now (bridgeMutate st) store).states.getLast?).getD
        (bridgeMutate st)).user_id = st.user_id := by
  cases hgl : (streamWorkflow c now (bridgeMutate st) store).states.getLast? with
  | none => exact ⟨le_refl _, rfl⟩
  | some x =>
    have hm : x ∈ (streamWorkflow c now (bridgeMutate st) store).states :=
      List.mem_of_mem_getLast? hgl
    have := runGraph_states_stepOk c now RECURSION_LIMIT Node.read_unread_emails
      (bridgeMutate st) store x hm
    exact ⟨this.1, this.2⟩

/-! ## Claim theorems -/

/-- Claim C1 (code bug, evaluated at the failing input): resolving the same
approval request twice is NOT idempotent in the code. `handle_approval_action`
checks only membership in `pending_drafts`, never the stored `status` (despite
its own comment "Check if draft exists and is still pending"), so after a first
approve has resolved draft "d1" to status "approved", a second approve event
for the same draft id calls `gmail_writer.send_draft` a second time, and a
later reject event overwrites the stored status with "rejected". -/
theorem duplicate_decision_not_idempotent :
    approveTwice.2.mail = [.sendDraft draftA, .sendDraft draftA]
    ∧ (pyGet approveOnce.1.pending_drafts "d1").map DraftData.status = some "approved"
    ∧ (pyGet rejectAfterApprove.1.pending_drafts "d1").map DraftData.status
        = some "rejected" :=
  ⟨rfl, rfl, rfl⟩

/-- Claim C2 (counterexample): the bridge does NOT re-enter the engine at the
PublishGate. Resuming a suspended user streams the compiled graph from its
entry point, so the executed node trace re-runs `read_unread_emails`,
`generate_email_summary`, `process_emails_for_drafts` and
`create_draft_responses` before reaching `send_drafts_to_slack`. -/
theorem resume_starts_at_entry_cex :
    (resume_workflow_after_action trivialCollab 10 "U1" storeSuspended).run.map RunOut.trace
      = some [Node.read_unread_emails, Node.generate_email_summary,
          Node.process_emails_for_drafts, Node.create_draft_responses,
          Node.send_drafts_to_slack, Node.send_final_summary] := rfl

/-- Claim C2 (amended): on a decision event for a user with stored state, the
bridge clears `awaiting_approval`, increments the cursor by exactly one, and
re-invokes the engine with this mutated state — but from the entry step
`read_unread_emails` (re-running the earlier steps), not from the gate; when
the run finishes without exception it persists the last yielded state and
responds with exactly one status line. -/
theorem resume_bridge_behavior (c : Collab) (now : Int) (uid : String)
    (store : StateManager) (st : GmailAgentState)
    (h : load_state_from_store store uid = some st) :
    (bridgeMutate st).awaiting_approval = false
    ∧ (bridgeMutate st).current_draft_index = st.current_draft_index + 1
    ∧ (resume_workflow_after_action c now uid store).run
        = some (streamWorkflow c now (bridgeMutate st) store)
    ∧ (streamWorkflow c now (bridgeMutate st) store).trace.head?
        = some Node.read_unread_emails
    ∧ ((streamWorkflow c now (bridgeMutate st) store).outcome = .finished →
        (resume_workflow_after_action c now uid store).store
          = save_state_to_store (streamWorkflow c now (bridgeMutate st) store).store
              now (((streamWorkflow c now (bridgeMutate st) store).states.getLast?).getD
                (bridgeMutate st))
        ∧ (resume_workflow_after_action c now uid store).responds.length = 1) := by
  refine ⟨rfl, rfl, resume_run_eq c now uid store st h, ?_, fun hf =>
    ⟨resume_store_of_finished c now uid store st h hf,
     resume_responds_of_finished c now uid store st h hf⟩⟩
  exact runGraph_trace_head c now 24 Node.read_unread_emails (bridgeMutate st) store

/-- Claim C2 witness: the amended behavior evaluated on the concrete suspended
store (loading returns the round-tripped `reloadState stSuspended`). -/
theorem resume_bridge_behavior_witness :
    (bridgeMutate (reloadState stSuspended)).awaiting_approval = false
    ∧ (bridgeMutate (reloadState stSuspended)).current_draft_index
        = (reloadState stSuspended).current_draft_index + 1
    ∧ (resume_workflow_after_action trivialCollab 10 "U1" storeSuspended).run
        = some (streamWorkflow trivialCollab 10 (bridgeMutate (reloadState stSuspended))
            storeSuspended)
    ∧ (streamWorkflow trivialCollab 10 (bridgeMutate (reloadState stSuspended))
        storeSuspended).trace.head? = some Node.read_unread_emails
    ∧ ((streamWorkflow trivialCollab 10 (bridgeMutate (reloadState stSuspended))
          storeSuspended).outcome = .finished →
        (resume_workflow_after_action trivialCollab 10 "U1" storeSuspended).store
          = save_state_to_store
              (streamWorkflow trivialCollab 10 (bridgeMutate (reloadState stSuspended))
                storeSuspended).store
              10 (((streamWorkflow trivialCollab 10 (bridgeMutate (reloadState stSuspended))
                storeSuspended).states.getLast?).getD (bridgeMutate (reloadState stSuspended)))
        ∧ (resume_workflow_after_action trivialCollab 10 "U1"
            storeSuspended).responds.length = 1) :=
  resume_bridge_behavior trivialCollab 10 "U1" storeSuspended (reloadState stSuspended) rfl

/-- Claim C3 (counterexample): the cursor bound `cursor ≤ len(drafts)` fails.
With a stored state whose drafts list is empty and cursor is 0, one decision
trigger leaves a persisted state with cursor 1 > 0 = len(drafts): the bridge
increments the cursor unconditionally. -/
theorem cursor_exceeds_drafts_len_cex :
    (((resume_workflow_after_action trivialCollab 0 "U1" storePlain).store.load_state
        "U1").map (fun st => (st.current_draft_index, st.draft_responses.length)))
      = some (1, 0)
    ∧ (((resume_workflow_after_action trivialCollab 0 "U1" storePlain).store.load_state
        "U1").map (fun st =>
          decide (st.current_draft_index ≤ (st.draft_responses.length : Int))))
      = some false :=
  ⟨rfl, rfl⟩

/-- Claim C3 (amended): the cursor is monotonically non-decreasing and stays
non-negative — every state yielded by an engine run has a cursor at least the
input state's, and a decision trigger that completes leaves a persisted cursor
at least one above the loaded one — but it is not bounded by `len(drafts)`. -/
theorem cursor_monotone_invariant :
    (∀ (c : Collab) (now : Int) (fuel : Nat) (n : Node) (s : GmailAgentState)
      (store : StateManager) (i : Nat) (s' : GmailAgentState),
      (runGraph c now fuel n s store).states.get? i = some s' →
        s.current_draft_index ≤ s'.current_draft_index
        ∧ (0 ≤ s.current_draft_index → 0 ≤ s'.current_draft_index))
    ∧ (∀ (c : Collab) (now : Int) (store : StateManager) (st st' : GmailAgentState),
      load_state_from_store store st.user_id = some st →
      (resume_workflow_after_action c now st.user_id store).outcome = .ok () →
      (resume_workflow_after_action c now st.user_id store).store.load_state
          st.user_id = some st' →
        st.current_draft_index + 1 ≤ st'.current_draft_index
        ∧ (0 ≤ st.current_draft_index → 0 ≤ st'.current_draft_index)) := by
  constructor
  · intro c now fuel n s store i s' hget
    have h := runGraph_states_stepOk c now fuel n s store s' (List.get?_mem hget)
    exact ⟨h.1, fun h0 => le_trans h0 h.1⟩
  · intro c now store st st' h hok hload
    have hf := resume_outcome_finished c now st.user_id store st h hok
    have hstore := resume_store_of_finished c now st.user_id store st h hf
    have hprops := resume_final_state_props c now store st
    have hwf : WellFormedState st := load_state_wellFormed store st.user_id st h
    have hwfF : WellFormedState
        (((streamWorkflow c now (bridgeMutate st) store).states.getLast?).getD
          (bridgeMutate st)) :=
      resume_final_state_wellFormed c now store st hwf
    have hload2 : (save_state_to_store
          (streamWorkflow c now (bridgeMutate st) store).store now
          (((streamWorkflow c now (bridgeMutate st) store).states.getLast?).getD
            (bridgeMutate st))).load_state
          (((streamWorkflow c now (bridgeMutate st) store).states.getLast?).getD
            (bridgeMutate st)).user_id
        = some (reloadState
            (((streamWorkflow c now (bridgeMutate st) store).states.getLast?).getD
              (bridgeMutate st))) :=
      load_state_after_save _ now _ hwfF
    rw [hprops.2] at hload2
    rw [hstore, hload2] at hload
    have hst' : st' = reloadState
        (((streamWorkflow c now (bridgeMutate st) store).states.getLast?).getD
          (bridgeMutate st)) := by
      injection hload with hload
      exact hload.symm
    rw [hst']
    have hcur : st.current_draft_index + 1
        ≤ (reloadState
            (((streamWorkflow c now (bridgeMutate st) store).states.getLast?).getD
              (bridgeMutate st))).current_draft_index := hprops.1
    exact ⟨hcur, fun h0 => by omega⟩

/-- Claim C3 witness: the amended invariant evaluated on the concrete empty-draft
resume. -/
theorem cursor_monotone_invariant_witness :
    stPlain.current_draft_index + 1 ≤ stPlainResumed.current_draft_index
    ∧ (0 ≤ stPlain.current_draft_index → 0 ≤ stPlainResumed.current_draft_index) :=
  cursor_monotone_invariant.2 trivialCollab 0 storePlain stPlain stPlainResumed
    rfl rfl rfl

/-- Claim C4 (code bug, evaluated at the failing input): a stored envelope with
an unknown type tag makes the `try` body of `load_state` raise the documented
`ValueError`, but the surrounding `except Exception` swallows it and the call
returns `None`, exactly as if no state had ever been stored — contradicting
both the spec and the function's own docstring. -/
theorem load_swallows_unknown_type_tag :
    smBad.load_state "U1" = none
    ∧ smBad.load_state_attempt "U1"
        = .error "Expected GmailAgentState, got SomeOtherState" :=
  ⟨rfl, rfl⟩

/-- Claim C5 (counterexample): the gate's timeout comparison is strict. At
exactly `now - awaiting_since = TIMEOUT_SECONDS` (3600), the claim demands an
implicit skip (clear flag, increment cursor), but the gate returns the state
entirely unchanged: the cursor stays 0 and `awaiting_approval` stays true. -/
theorem gate_timeout_boundary_cex :
    (send_drafts_to_slack trivialCollab 3600 {} stSuspended).result = .ok stSuspended
    ∧ stSuspended.awaiting_approval = true
    ∧ stSuspended.current_draft_index = 0
    ∧ stSuspended.awaiting_approval_since = some 0
    ∧ stSuspended.draft_responses.length = 1 :=
  ⟨rfl, rfl, rfl, rfl, rfl⟩

/-- Claim C5 (amended): for a state with `0 ≤ cursor < len(drafts)` and
`awaiting_approval` already true, the gate publishes nothing and leaves the
store untouched; it performs the implicit skip (clear flag, cursor + 1) when
`now - awaiting_since` is STRICTLY greater than the 1-hour timeout, and
returns the state entirely unchanged otherwise. -/
theorem gate_waiting_behavior (c : Collab) (now since : Int) (store : StateManager)
    (s : GmailAgentState) (h0 : 0 ≤ s.current_draft_index)
    (h1 : s.current_draft_index < (s.draft_responses.length : Int))
    (h2 : s.awaiting_approval = true)
    (h3 : s.awaiting_approval_since = some since) :
    (send_drafts_to_slack c now store s).published = []
    ∧ (send_drafts_to_slack c now store s).store = store
    ∧ (now - since > TIMEOUT_SECONDS →
        (send_drafts_to_slack c now store s).result
          = .ok { s with
              awaiting_approval := false,
              current_draft_index := s.current_draft_index + 1 })
    ∧ (¬(now - since > TIMEOUT_SECONDS) →
        (send_drafts_to_slack c now store s).result = .ok s) := by
  rw [gate_awaiting_eq c now since store s h0 h1 h2 h3]
  split
  · rename_i ht
    exact ⟨rfl, rfl, fun _ => rfl, fun hn => absurd ht hn⟩
  · rename_i ht
    exact ⟨rfl, rfl, fun hy => absurd hy ht, fun _ => rfl⟩

/-- Claim C5 witness: the amended gate behavior evaluated just past the
timeout on the concrete suspended state. -/
theorem gate_waiting_behavior_witness :
    (send_drafts_to_slack trivialCollab 3601 {} stSuspended).published = []
    ∧ (send_drafts_to_slack trivialCollab 3601 {} stSuspended).store = {}
    ∧ ((3601 : Int) - 0 > TIMEOUT_SECONDS →
        (send_drafts_to_slack trivialCollab 3601 {} stSuspended).result
          = .ok { stSuspended with
              awaiting_approval := false,
              current_draft_index := stSuspended.current_draft_index + 1 })
    ∧ (¬((3601 : Int) - 0 > TIMEOUT_SECONDS) →
        (send_drafts_to_slack trivialCollab 3601 {} stSuspended).result
          = .ok stSuspended) :=
  gate_waiting_behavior trivialCollab 3601 0 {} stSuspended (by decide) (by decide)
    rfl rfl

/-- Claim C6 (counterexample): the round trip is NOT field-by-field equal.
Saving the suspended state (whose one `draft_responses` dict holds the live
`EmailMessage` model under "original_email") and loading it back yields
`reloadState stSuspended`: the model has been duck-serialized to a plain
dict (`isEmailModel` flips from true to false), so the loaded state differs
from the saved one. -/
theorem roundtrip_loses_nested_models_cex :
    (StateManager.save_state {} 0 stSuspended).load_state "U1"
      = some (reloadState stSuspended)
    ∧ (stSuspended.draft_responses.head?.bind
        (fun v => pyValGet v "original_email")).map isEmailModel = some true
    ∧ ((reloadState stSuspended).draft_responses.head?.bind
        (fun v => pyValGet v "original_email")).map isEmailModel = some false
    ∧ (StateManager.save_state {} 0 stSuspended).load_state "U1"
        ≠ some stSuspended := by
  refine ⟨rfl, rfl, rfl, ?_⟩
  intro hEq
  have hprobe := congrArg (fun r => r.map (fun st =>
    (st.draft_responses.head?.bind
      (fun v => pyValGet v "original_email")).map isEmailModel)) hEq
  exact absurd hprobe (by decide)

/-- Claim C6 (amended): for every well-formed `GmailAgentState`, loading the
state's user id immediately after saving it returns `reloadState st` — equal
to the saved state on every typed field (user id, thread id, unread emails,
indices, flags, messages), but with the `EmailMessage` models nested inside
the dynamically typed `draft_responses`, `pending_approvals` and
`summary_by_sender` replaced by their plain-dict dumps, because pydantic does
not reconstruct models under `List[Dict]`/`dict` annotations. -/
theorem state_roundtrip_persistence (sm : StateManager) (now : Int)
    (st : GmailAgentState) (h : WellFormedState st) :
    (sm.save_state now st).load_state st.user_id = some (reloadState st)
    ∧ (reloadState st).user_id = st.user_id
    ∧ (reloadState st).thread_id = st.thread_id
    ∧ (reloadState st).unread_emails = st.unread_emails
    ∧ (reloadState st).current_email_index = st.current_email_index
    ∧ (reloadState st).processed_emails = st.processed_emails
    ∧ (reloadState st).current_draft_index = st.current_draft_index
    ∧ (reloadState st).awaiting_approval = st.awaiting_approval
    ∧ (reloadState st).awaiting_approval_since = st.awaiting_approval_since
    ∧ (reloadState st).should_continue = st.should_continue
    ∧ (reloadState st).error_message = st.error_message
    ∧ (reloadState st).final_summary = st.final_summary
    ∧ (reloadState st).workflow_complete = st.workflow_complete :=
  ⟨load_state_after_save sm now st h, rfl, rfl, rfl, rfl, rfl, rfl, rfl, rfl,
    rfl, rfl, rfl, rfl⟩

/-- Claim C6 witness: the amended round trip evaluated on the concrete
suspended state. -/
theorem state_roundtrip_persistence_witness :
    (StateManager.save_state ({} : StateManager) 0 stSuspended).load_state
        stSuspended.user_id = some (reloadState stSuspended)
    ∧ (reloadState stSuspended).user_id = stSuspended.user_id
    ∧ (reloadState stSuspended).thread_id = stSuspended.thread_id
    ∧ (reloadState stSuspended).unread_emails = stSuspended.unread_emails
    ∧ (reloadState stSuspended).current_email_index
        = stSuspended.current_email_index
    ∧ (reloadState stSuspended).processed_emails = stSuspended.processed_emails
    ∧ (reloadState stSuspended).current_draft_index
        = stSuspended.current_draft_index
    ∧ (reloadState stSuspended).awaiting_approval = stSuspended.awaiting_approval
    ∧ (reloadState stSuspended).awaiting_approval_since
        = stSuspended.awaiting_approval_since
    ∧ (reloadState stSuspended).should_continue = stSuspended.should_continue
    ∧ (reloadState stSuspended).error_message = stSuspended.error_message
    ∧ (reloadState stSuspended).final_summary = stSuspended.final_summary
    ∧ (reloadState stSuspended).workflow_complete
        = stSuspended.workflow_complete :=
  state_roundtrip_persistence {} 0 stSuspended ⟨rfl, rfl⟩

/-- Claim C7 (counterexample): a decision trigger for a user with no stored
state is a SILENT no-op: the bridge returns without error, without running the
engine, without touching the store — and without reporting any "nothing to
resume" result (`responds` is empty, against the claim). -/
theorem resume_missing_state_silent_cex :
    load_state_from_store ({} : StateManager) "ghost" = none
    ∧ resume_workflow_after_action trivialCollab 0 "ghost" {}
        = { store := {}, responds := [], run := none, outcome := .ok () } :=
  ⟨rfl, rfl⟩

/-- Claim C7 (amended): when no state is stored for the user, the bridge
returns silently: no error, no engine run, no state created or persisted, and
no message reported to the caller. -/
theorem resume_missing_state_noop (c : Collab) (now : Int) (uid : String)
    (store : StateManager) (h : load_state_from_store store uid = none) :
    resume_workflow_after_action c now uid store
      = { store := store, responds := [], run := none, outcome := .ok () } := by
  unfold resume_workflow_after_action
  rw [h]

/-- Claim C7 witness: the amended no-op evaluated on an empty store. -/
theorem resume_missing_state_noop_witness :
    resume_workflow_after_action trivialCollab 7 "ghost" {}
      = { store := {}, responds := [], run := none, outcome := .ok () } :=
  resume_missing_state_noop trivialCollab 7 "ghost" {} rfl

/-- Claim C8 (code bug, evaluated at the failing input): resolving a pending
request with the save decision triggers exactly the save mail action
(`gmail_writer.save_draft`, not `send_draft`) and replaces the original
message, but `_handle_save` — unlike `_handle_approve` and `_handle_reject` —
writes nothing back into the draft dict: the stored status remains "pending"
and no resolution timestamp is recorded, so the request is not terminal. -/
theorem save_decision_leaves_status_pending :
    saveOnce.2.mail = [.saveDraft draftA]
    ∧ (pyGet saveOnce.1.pending_drafts "d1").map DraftData.status = some "pending"
    ∧ (pyGet saveOnce.1.pending_drafts "d1").map DraftData.approved_at = some none
    ∧ (pyGet saveOnce.1.pending_drafts "d1").map DraftData.rejected_at = some none
    ∧ saveOnce.1 = hPending :=
  ⟨rfl, rfl, rfl, rfl, rfl⟩

/-- Claim C9: `FetchUnread` de-duplication. After `read_unread_emails`, the
`unread_emails` ids are pairwise distinct and appear in order of each id's
first occurrence in the fetched sequence; the step never raises, and its
outgoing edge is unconditional (it cannot suspend). -/
theorem fetch_unread_dedup (c : Collab) (now : Int) (store : StateManager)
    (s : GmailAgentState) :
    ((read_unread_emails c s).unread_emails.map EmailMessage.id).Nodup
    ∧ (read_unread_emails c s).unread_emails.map EmailMessage.id
        = firstOccurIds (((c.read_emails.map
            (fun e => c.thread_emails e.thread_id)).flatten).map EmailMessage.id)
    ∧ (runNode c now store .read_unread_emails s).result
        = .ok (read_unread_emails c s)
    ∧ nextNode .read_unread_emails (read_unread_emails c s)
        = some .generate_email_summary :=
  ⟨dedupById_ids_nodup _, dedupById_ids _, rfl, rfl⟩

/-- Claim C10: per-user isolation of the State Store. Saving a state for one
user leaves every other user's load result unchanged: the save touches only
the record keyed by its own `state.user_id`. -/
theorem state_store_per_user_isolation (sm : StateManager) (now : Int)
    (stA : GmailAgentState) (uidB : String) (h : stA.user_id ≠ uidB) :
    (sm.save_state now stA).load_state uidB = sm.load_state uidB :=
  load_state_after_save_ne sm now stA uidB h

/-- Claim C10 witness: isolation evaluated on a concrete store and distinct
user ids. -/
theorem state_store_per_user_isolation_witness :
    (smBad.save_state 5 stPlain).load_state "bob" = smBad.load_state "bob" :=
  state_store_per_user_isolation smBad 5 stPlain "bob" (by decide)

end InboxZero
